import Mathlib

/-!
Verification development for `smtp_vrfy.py` (SMTPvrfy).

The script probes an SMTP server with the VRFY command, one candidate
username at a time, and collects the usernames whose reply contains "252".
This file gives a shallow embedding of the two functions the claims are
about — `verify_smtp` (the probing loop, lines 50-111 of the source) and
the inline branch of `get_usernames` (lines 37-44) — and proves or refutes
the claims against that embedding.

Modelling conventions:
  * The network is abstracted as one `NetEvent` per candidate: either the
    server reply reached after a successful connect/banner/send/recv
    exchange, or the point at which an `IOError` interrupted the exchange,
    together with the text of the error message.  This is exactly the
    information the source's control flow consumes.
  * Each iteration of the loop records the low-level socket `Action`s it
    performs (socket creation, connect, recv, send, close, sleep), so that
    resource and pacing claims are statements about a trace rather than
    about stubs.  The `finally:` block of the source (lines 105-108) is
    modelled faithfully: its actions run on every exit of the try body,
    including the `break` exits.
  * The script's verbose `print(..) % (..)` statements are modelled as
    log events carrying the printed information, following the design note
    of the documentation that only the informational content and its
    verbosity level are part of the behaviour.  The dynamic semantics
    embedded here is the one under which the script's loop is well defined
    (string replies, string commands), i.e. the semantics the script was
    written for.
  * `int(port)` raising `ValueError` before the loop is modelled by
    `verify_smtp` returning `Except.error`.
-/

namespace SMTPvrfy

/-- Python `needle in hay` substring membership, on lists of characters. -/
def pyInL (needle : List Char) : List Char → Bool
  | [] => needle.isEmpty
  | c :: rest => needle.isPrefixOf (c :: rest) || pyInL needle rest

/-- Python `needle in hay` substring membership on strings, as used by the
reply classification and the error-message test of `verify_smtp`. -/
def pyIn (needle hay : String) : Bool :=
  pyInL needle.data hay.data

/-- Argument passed for the `port` parameter of `verify_smtp`: Python
`None`, a string, or an integer (the declared default is the integer 25). -/
inductive PortArg
  | pyNone
  | pyStr (s : String)
  | pyInt (n : Int)
deriving DecidableEq

/-- Characters stripped by Python `int()` around a numeric literal. -/
def stripWsChars (l : List Char) : List Char :=
  ((l.dropWhile Char.isWhitespace).reverse.dropWhile Char.isWhitespace).reverse

/-- Value of a decimal digit string. -/
def digitsVal (l : List Char) : Nat :=
  l.foldl (fun a c => 10 * a + (c.toNat - 48)) 0

/-- Model of Python `int(s)` on optionally signed decimal strings:
whitespace is stripped, then an optional sign followed by a nonempty
run of digits; anything else raises `ValueError` (here: `none`). -/
def pyIntParse (s : String) : Option Int :=
  match stripWsChars s.data with
  | '-' :: ds => if ds ≠ [] ∧ ds.all Char.isDigit then some (-(digitsVal ds : Int)) else none
  | '+' :: ds => if ds ≠ [] ∧ ds.all Char.isDigit then some (digitsVal ds : Int) else none
  | ds => if ds ≠ [] ∧ ds.all Char.isDigit then some (digitsVal ds : Int) else none

/-- Port handling at the top of `verify_smtp` (source lines 53-57):
`if port is None or port == " ": port = 25  else: port = int(port)`.
Only `None` and the single-space string are treated as unset; every other
string goes through `int`, whose failure is a `ValueError` raised before
the loop starts. -/
def resolvePort : PortArg → Except String Int
  | .pyNone => .ok 25
  | .pyStr s =>
      if s = " " then .ok 25
      else
        match pyIntParse s with
        | some n => .ok n
        | none => .error ("ValueError: invalid literal for int: " ++ s)
  | .pyInt n => .ok n

/-- What the network does during one candidate's iteration: either an
`IOError` at one of the four blocking calls (connect, banner recv, send,
reply recv), carrying the error message `str(e)`, or a completed exchange
carrying the banner and the server reply.  For the two failure points after
the banner was received, the banner text is kept because the source logs it
before the failing call. -/
inductive NetEvent
  | connectFail (msg : String)
  | bannerFail (msg : String)
  | sendFail (banner : String) (msg : String)
  | recvFail (banner : String) (msg : String)
  | reply (banner : String) (resp : String)
deriving DecidableEq

/-- Low-level socket operations of one iteration, in program order. -/
inductive Action
  | socketCreate
  | connectAttempt
  | recvBanner
  | send (cmd : String)
  | recvReply
  | close
  | sleep
deriving DecidableEq

/-- Classification outcome of one iteration (spec's ProbeOutcome, plus the
two IOError cases of the `except` clause). -/
inductive Outcome
  | confirmed
  | rejected
  | authRequired
  | unsupported
  | otherReply
  | ioFatal
  | ioNonFatal
deriving DecidableEq

/-- Terminal status of a scan: how the candidate loop ended. -/
inductive ScanStatus
  | completed
  | abortedAuthRequired
  | abortedUnsupported
  | abortedConnectionError
deriving DecidableEq

/-- The error-message marker whose presence makes a connect failure fatal
for the whole scan (source line 101). -/
def fatalMarker : String := "Operation now in progress"

/-- Reply classification of `verify_smtp` (source lines 84-96): substring
tests for "252", "550", "503", "500", in that order, first match winning. -/
def classify (r : String) : Outcome :=
  if pyIn ("252") r then .confirmed
  else if pyIn ("550") r then .rejected
  else if pyIn ("503") r then .authRequired
  else if pyIn ("500") r then .unsupported
  else .otherReply

/-- Outcome of the `except IOError` clause (source lines 98-103): fatal
when the message contains the marker, otherwise recorded and passed over. -/
def ioOutcome (msg : String) : Outcome :=
  if pyIn fatalMarker msg then .ioFatal else .ioNonFatal

/-- Outcome of one iteration, as a function of its network event. -/
def iterOutcome : NetEvent → Outcome
  | .reply _ r => classify r
  | .connectFail m => ioOutcome m
  | .bannerFail m => ioOutcome m
  | .sendFail _ m => ioOutcome m
  | .recvFail _ m => ioOutcome m

/-- Whether an outcome leaves the loop with `break`. -/
def abortsB : Outcome → Bool
  | .authRequired => true
  | .unsupported => true
  | .ioFatal => true
  | _ => false

/-- The status an aborting outcome gives the scan. -/
def abortedStatus : Outcome → ScanStatus
  | .authRequired => .abortedAuthRequired
  | .unsupported => .abortedUnsupported
  | .ioFatal => .abortedConnectionError
  | _ => .completed

/-- The literal VRFY line sent for a candidate (source line 78). -/
def vrfyCommand (user : String) : String :=
  "VRFY " ++ user ++ "\n"

/-- Actions of the try body of one iteration, up to the point where its
event interrupts it (or all of them, for a completed exchange). -/
def bodyActions (user : String) : NetEvent → List Action
  | .connectFail _ => [.socketCreate, .connectAttempt]
  | .bannerFail _ => [.socketCreate, .connectAttempt, .recvBanner]
  | .sendFail _ _ => [.socketCreate, .connectAttempt, .recvBanner, .send (vrfyCommand user)]
  | .recvFail _ _ => [.socketCreate, .connectAttempt, .recvBanner, .send (vrfyCommand user), .recvReply]
  | .reply _ _ => [.socketCreate, .connectAttempt, .recvBanner, .send (vrfyCommand user), .recvReply]

/-- Actions of the `finally:` block (source lines 105-108): close the
socket, then sleep when the configured delay is non-zero.  These run on
every exit of the try body, the `break` exits included. -/
def finallyActions (sleep_value : Nat) : List Action :=
  Action.close :: (if sleep_value ≠ 0 then [Action.sleep] else [])

/-- Full action trace of one iteration: try body, then the finally block. -/
def iterActions (sleep_value : Nat) (user : String) (ev : NetEvent) : List Action :=
  bodyActions user ev ++ finallyActions sleep_value

/-- Log messages the source prints, by informational content. -/
inductive LogMsg
  | connecting (ip : String) (port : Int)
  | banner (b : String)
  | executing (cmd : String)
  | userValid (u : String)
  | userInvalid
  | serverAuthRequired
  | vrfyUnsupported
  | ioErrorText (msg : String)
  | smtpConnectFailed
deriving DecidableEq

/-- Log lines of the `except IOError` clause: the raw error text at
verbosity > 1, then the unconditional failure line when the marker is
present (source lines 98-103). -/
def ioErrorLog (verbose : Nat) (m : String) : List LogMsg :=
  (if verbose > 1 then [LogMsg.ioErrorText m] else []) ++
    (if pyIn fatalMarker m then [LogMsg.smtpConnectFailed] else [])

/-- Log lines of the classification branches (source lines 84-96). -/
def classifyLog (verbose : Nat) (user r : String) : List LogMsg :=
  match classify r with
  | .confirmed => if verbose > 1 then [LogMsg.userValid user] else []
  | .rejected => if verbose > 1 then [LogMsg.userInvalid] else []
  | .authRequired => [LogMsg.serverAuthRequired]
  | .unsupported => [LogMsg.vrfyUnsupported]
  | _ => []

/-- Log lines of one iteration: banner and command at verbosity > 0 once
the banner was received, then the branch-specific lines. -/
def iterLog (verbose : Nat) (user : String) : NetEvent → List LogMsg
  | .connectFail m => ioErrorLog verbose m
  | .bannerFail m => ioErrorLog verbose m
  | .sendFail b m =>
      (if verbose > 0 then [LogMsg.banner b, LogMsg.executing (vrfyCommand user)] else []) ++
        ioErrorLog verbose m
  | .recvFail b m =>
      (if verbose > 0 then [LogMsg.banner b, LogMsg.executing (vrfyCommand user)] else []) ++
        ioErrorLog verbose m
  | .reply b r =>
      (if verbose > 0 then [LogMsg.banner b, LogMsg.executing (vrfyCommand user)] else []) ++
        classifyLog verbose user r

/-- Record of one executed iteration: the candidate, its network event and
the socket actions performed. -/
structure Iter where
  user : String
  event : NetEvent
  actions : List Action
deriving DecidableEq

/-- Result of the candidate loop: the accumulated `valid_users` list, how
the loop ended, one `Iter` per candidate actually probed, and the log. -/
structure LoopResult where
  validUsers : List String
  status : ScanStatus
  iters : List Iter
  log : List LogMsg
deriving DecidableEq

/-- The candidate loop of `verify_smtp` (source lines 63-108).  Each
candidate is paired with the network event its iteration meets.  A
candidate whose reply contains "252" is appended to `valid_users`; "550"
and unclassified replies leave it unchanged; "503", "500" and a fatal
connect failure leave the loop with `break`.  The `finally:` actions are
part of every iteration, aborting ones included. -/
def runLoop (verbose sleep_value : Nat) : List (String × NetEvent) → LoopResult
  | [] => ⟨[], .completed, [], []⟩
  | (user, ev) :: rest =>
      if abortsB (iterOutcome ev) then
        ⟨[], abortedStatus (iterOutcome ev),
          [⟨user, ev, iterActions sleep_value user ev⟩], iterLog verbose user ev⟩
      else
        ⟨(if iterOutcome ev = Outcome.confirmed then [user] else []) ++
            (runLoop verbose sleep_value rest).validUsers,
          (runLoop verbose sleep_value rest).status,
          ⟨user, ev, iterActions sleep_value user ev⟩ :: (runLoop verbose sleep_value rest).iters,
          iterLog verbose user ev ++ (runLoop verbose sleep_value rest).log⟩

/-- Value returned by a run of `verify_smtp` that got past port
resolution: the resolved port and the loop's result. -/
structure RunTrace where
  port : Int
  result : LoopResult
deriving DecidableEq

/-- `verify_smtp` (source lines 50-111): resolve the port — a failing
`int()` raises `ValueError` before any connection is attempted, modelled
as `Except.error` — then print the connecting line at verbosity > 0 and
run the candidate loop.  The returned Python value is
`(result.validUsers)`; the status and traces record how the loop ended
and what it did on the wire. -/
def verify_smtp (verbose : Nat) (usernames : List (String × NetEvent)) (ip : String)
    (timeout_value : Nat) (sleep_value : Nat) (port : PortArg) : Except String RunTrace :=
  match resolvePort port with
  | .error e => .error e
  | .ok p =>
      .ok ⟨p,
        ⟨(runLoop verbose sleep_value usernames).validUsers,
          (runLoop verbose sleep_value usernames).status,
          (runLoop verbose sleep_value usernames).iters,
          (if verbose > 0 then [LogMsg.connecting ip p] else []) ++
            (runLoop verbose sleep_value usernames).log⟩⟩

/-- Python `str.strip(c)` for a single character: remove every leading and
trailing occurrence of `c`. -/
def stripChar (c : Char) (l : List Char) : List Char :=
  ((l.dropWhile (· == c)).reverse.dropWhile (· == c)).reverse

/-- Characters allowed in a URL scheme by `urllib.parse`: ASCII letters,
digits, and the three characters plus, minus, dot. -/
def schemeCharOk (c : Char) : Bool :=
  c.isAlpha || c.isDigit || c == '+' || c == '-' || c == '.'

/-- Scheme extraction of `urllib.parse.urlsplit`: the text before the
first colon is the scheme, lowercased, provided it is nonempty, starts
with a letter and uses only scheme characters; otherwise there is no
scheme and the whole input is the rest. -/
def splitScheme (l : List Char) : Option (List Char × List Char) :=
  let pre := l.takeWhile (· ≠ ':')
  if pre.length < l.length ∧ pre ≠ [] ∧ pre.all schemeCharOk ∧
      (pre.head?.map Char.isAlpha).getD false
  then some (pre.map Char.toLower, l.drop (pre.length + 1))
  else none

/-- Netloc removal of `urllib.parse.urlsplit`: when the rest starts with
two slashes, the netloc runs to the first slash, question mark or hash,
and is dropped (the delimiter itself stays with the path). -/
def dropNetloc (l : List Char) : List Char :=
  if l.take 2 = ['/', '/'] then
    (l.drop 2).dropWhile (fun c => !(c == '/' || c == '?' || c == '#'))
  else l

/-- Query and fragment removal of `urllib.parse.urlsplit`: the path runs
to the first question mark or hash. -/
def takePath (l : List Char) : List Char :=
  l.takeWhile (fun c => !(c == '?' || c == '#'))

/-- Index of the last occurrence of `c` in `l`, Python `str.rfind`. -/
def rfindIdx (c : Char) (l : List Char) : Option Nat :=
  match l.reverse.findIdx? (· == c) with
  | some j => some (l.length - 1 - j)
  | none => none

/-- Params removal of `urllib.parse.urlparse` (`_splitparams`): the path
is cut at the first semicolon at or after the last slash (at the first
semicolon anywhere when there is no slash). -/
def splitParamsPath (p : List Char) : List Char :=
  match rfindIdx '/' p with
  | some k =>
      match (p.drop k).findIdx? (· == ';') with
      | some j => p.take (k + j)
      | none => p
  | none =>
      match p.findIdx? (· == ';') with
      | some j => p.take j
      | none => p

/-- The two components of `urllib.parse.urlparse` that `get_usernames`
reads: `scheme` and `path`. -/
structure UrlParts where
  scheme : List Char
  path : List Char

/-- Model of `urllib.parse.urlparse(s)` restricted to the scheme and path
components, the only ones `get_usernames` consumes. -/
def urlparse (s : String) : UrlParts :=
  match splitScheme s.data with
  | some (sch, rest) => ⟨sch, splitParamsPath (takePath (dropNetloc rest))⟩
  | none => ⟨[], splitParamsPath (takePath (dropNetloc s.data))⟩

/-- Per-entry URL handling of the inline branch of `get_usernames`
(source lines 40-43): an entry whose parse yields scheme http or https is
replaced by its path stripped of leading and trailing slashes; every
other entry is kept verbatim. -/
def transformEntry (e : String) : String :=
  let parsed := urlparse e
  if parsed.scheme = ("http").data ∨ parsed.scheme = ("https").data
  then ⟨stripChar '/' parsed.path⟩
  else e

/-- The append loop of the inline branch (source lines 39-44): each entry
of the split, transformed, is appended to the accumulator in order. -/
def appendEntries : List String → List String → List String
  | [], acc => acc
  | e :: rest, acc => appendEntries rest (acc ++ [transformEntry e])

/-- Helper for `pySplitOnSpace`: accumulate the current piece (reversed)
and cut at every occurrence of `c`, keeping empty pieces. -/
def splitOnCharAux (c : Char) : List Char → List Char → List (List Char)
  | [], cur => [cur.reverse]
  | x :: rest, cur =>
      if x == c then cur.reverse :: splitOnCharAux c rest []
      else splitOnCharAux c rest (x :: cur)

/-- Python `s.split(' ')`: cut at every single space character, keeping
empty pieces (so consecutive spaces yield empty entries, and no other
whitespace cuts). -/
def pySplitOnSpace (s : String) : List String :=
  (splitOnCharAux ' ' s.data []).map (fun l => ⟨l⟩)

/-- The inline (non-file) branch of `get_usernames` (source lines 26-47),
reached when the argument does not name an existing file: a falsy (empty)
argument yields no candidates; otherwise the argument is split on the
single-space character — Python `split(' ')` — and each entry is
transformed and appended. -/
def get_usernames_inline (arg : String) : List String :=
  if arg = "" then [] else appendEntries (pySplitOnSpace arg) []

/-- Helper for the spec-side splitter: accumulate the current token
(reversed) and cut at every whitespace character, keeping empty tokens. -/
def splitWsAux : List Char → List Char → List (List Char)
  | [], cur => [cur.reverse]
  | c :: rest, cur =>
      if c.isWhitespace then cur.reverse :: splitWsAux rest []
      else splitWsAux rest (c :: cur)

/-- Modelled from the spec: the Candidate Supplier splits an inline source
"on whitespace" — Python `str.split()` with no argument, i.e. maximal
whitespace-separated words, no empty entries.  Stated only for comparison
with `get_usernames_inline`, which the source builds from `split(' ')`. -/
def splitWhitespaceSpec (s : String) : List String :=
  ((splitWsAux s.data []).filter (· ≠ [])).map (fun l => ⟨l⟩)

/-- Modelled from the spec: the Candidate Supplier as the spec words it —
whitespace split, then the same per-entry URL transformation. -/
def get_usernames_whitespace_spec (arg : String) : List String :=
  (splitWhitespaceSpec arg).map transformEntry

/-- The scan-relevant view of a `verify_smtp` run: the resolved port, the
returned `valid_users` list, the terminal status and the probe trace —
everything except the diagnostic log. -/
def scanView : Except String RunTrace → Except String (Int × List String × ScanStatus × List Iter)
  | .error e => .error e
  | .ok t => .ok (t.port, t.result.validUsers, t.result.status, t.result.iters)

/-- Every iteration record of a run carries exactly the action trace
`iterActions` computes for its candidate and event. -/
theorem runLoop_iters_shape (verbose sleep_value : Nat) (pairs : List (String × NetEvent)) :
    ∀ it ∈ (runLoop verbose sleep_value pairs).iters,
      it.actions = iterActions sleep_value it.user it.event := by
  induction pairs with
  | nil => simp [runLoop]
  | cons p rest ih =>
      obtain ⟨u, ev⟩ := p
      cases hab : abortsB (iterOutcome ev) with
      | false =>
          intro it hmem
          simp only [runLoop, hab, Bool.false_eq_true, if_false, List.mem_cons] at hmem
          rcases hmem with h | h
          · rw [h]
          · exact ih it h
      | true =>
          intro it hmem
          simp only [runLoop, hab, if_true, List.mem_singleton] at hmem
          rw [hmem]

/-- C1: for every candidate whose server reply is classified, the reply
text is scanned for the status-code substrings in the precedence order
252, 550, 503, 500, first match winning: a "252" reply appends the
candidate to the confirmed list and the scan continues; otherwise a "550"
reply leaves the list unchanged and the scan continues; otherwise a "503"
or "500" reply aborts the scan with the list unchanged; a reply matching
none of the four leaves the list unchanged and the scan continues. -/
theorem C1_classification_precedence (verbose sleep_value : Nat) (u b r : String)
    (rest : List (String × NetEvent)) :
    (pyIn ("252") r = true →
        (runLoop verbose sleep_value ((u, NetEvent.reply b r) :: rest)).validUsers
            = u :: (runLoop verbose sleep_value rest).validUsers
        ∧ (runLoop verbose sleep_value ((u, NetEvent.reply b r) :: rest)).status
            = (runLoop verbose sleep_value rest).status
        ∧ (runLoop verbose sleep_value ((u, NetEvent.reply b r) :: rest)).iters.map Iter.user
            = u :: (runLoop verbose sleep_value rest).iters.map Iter.user)
    ∧ (pyIn ("252") r = false → pyIn ("550") r = true →
        (runLoop verbose sleep_value ((u, NetEvent.reply b r) :: rest)).validUsers
            = (runLoop verbose sleep_value rest).validUsers
        ∧ (runLoop verbose sleep_value ((u, NetEvent.reply b r) :: rest)).status
            = (runLoop verbose sleep_value rest).status
        ∧ (runLoop verbose sleep_value ((u, NetEvent.reply b r) :: rest)).iters.map Iter.user
            = u :: (runLoop verbose sleep_value rest).iters.map Iter.user)
    ∧ (pyIn ("252") r = false → pyIn ("550") r = false → pyIn ("503") r = true →
        (runLoop verbose sleep_value ((u, NetEvent.reply b r) :: rest)).validUsers = []
        ∧ (runLoop verbose sleep_value ((u, NetEvent.reply b r) :: rest)).status
            = ScanStatus.abortedAuthRequired
        ∧ (runLoop verbose sleep_value ((u, NetEvent.reply b r) :: rest)).iters.map Iter.user
            = [u])
    ∧ (pyIn ("252") r = false → pyIn ("550") r = false → pyIn ("503") r = false →
          pyIn ("500") r = true →
        (runLoop verbose sleep_value ((u, NetEvent.reply b r) :: rest)).validUsers = []
        ∧ (runLoop verbose sleep_value ((u, NetEvent.reply b r) :: rest)).status
            = ScanStatus.abortedUnsupported
        ∧ (runLoop verbose sleep_value ((u, NetEvent.reply b r) :: rest)).iters.map Iter.user
            = [u])
    ∧ (pyIn ("252") r = false → pyIn ("550") r = false → pyIn ("503") r = false →
          pyIn ("500") r = false →
        (runLoop verbose sleep_value ((u, NetEvent.reply b r) :: rest)).validUsers
            = (runLoop verbose sleep_value rest).validUsers
        ∧ (runLoop verbose sleep_value ((u, NetEvent.reply b r) :: rest)).status
            = (runLoop verbose sleep_value rest).status
        ∧ (runLoop verbose sleep_value ((u, NetEvent.reply b r) :: rest)).iters.map Iter.user
            = u :: (runLoop verbose sleep_value rest).iters.map Iter.user) := by
  refine ⟨?_, ?_, ?_, ?_, ?_⟩
  · intro h1
    simp [runLoop, iterOutcome, classify, h1, abortsB]
  · intro h1 h2
    simp [runLoop, iterOutcome, classify, h1, h2, abortsB]
  · intro h1 h2 h3
    simp [runLoop, iterOutcome, classify, h1, h2, h3, abortsB, abortedStatus]
  · intro h1 h2 h3 h4
    simp [runLoop, iterOutcome, classify, h1, h2, h3, h4, abortsB, abortedStatus]
  · intro h1 h2 h3 h4
    simp [runLoop, iterOutcome, classify, h1, h2, h3, h4, abortsB]

/-- C1 witness: a single candidate with a reply containing "252" ends up
in the confirmed list. -/
theorem C1_witness :
    (runLoop 0 0 [(("alice"), NetEvent.reply ("220 b") ("252 maybe"))]).validUsers
      = [("alice")] := by
  have h := (C1_classification_precedence 0 0 ("alice") ("220 b") ("252 maybe") []).1 (by decide)
  exact h.1.trans (by decide)

/-- C3: a connect failure whose error message carries the timeout-class
marker of the source ("Operation now in progress") aborts the whole scan
with reason ConnectionError and no later candidate is attempted; every
other connect failure is recorded only against its candidate and the scan
continues with the next one. -/
theorem C3_connect_failure_handling (verbose sleep_value : Nat) (u m : String)
    (rest : List (String × NetEvent)) :
    (pyIn fatalMarker m = true →
        runLoop verbose sleep_value ((u, NetEvent.connectFail m) :: rest)
          = ⟨[], ScanStatus.abortedConnectionError,
              [⟨u, NetEvent.connectFail m, iterActions sleep_value u (NetEvent.connectFail m)⟩],
              iterLog verbose u (NetEvent.connectFail m)⟩)
    ∧ (pyIn fatalMarker m = false →
        (runLoop verbose sleep_value ((u, NetEvent.connectFail m) :: rest)).validUsers
            = (runLoop verbose sleep_value rest).validUsers
        ∧ (runLoop verbose sleep_value ((u, NetEvent.connectFail m) :: rest)).status
            = (runLoop verbose sleep_value rest).status
        ∧ (runLoop verbose sleep_value ((u, NetEvent.connectFail m) :: rest)).iters.map Iter.user
            = u :: (runLoop verbose sleep_value rest).iters.map Iter.user) := by
  constructor
  · intro h1
    simp [runLoop, iterOutcome, ioOutcome, h1, abortsB, abortedStatus]
  · intro h1
    simp [runLoop, iterOutcome, ioOutcome, h1, abortsB]

/-- C3 witness: a first candidate failing with the timeout-class marker
aborts the scan with reason ConnectionError. -/
theorem C3_witness :
    (runLoop 0 0
        [(("u1"), NetEvent.connectFail fatalMarker),
         (("u2"), NetEvent.reply ("b") ("252 y"))]).status
      = ScanStatus.abortedConnectionError := by
  have h := (C3_connect_failure_handling 0 0 ("u1") fatalMarker
      [(("u2"), NetEvent.reply ("b") ("252 y"))]).1 (by decide)
  rw [h]

/-- C4: for every configuration whose port resolves, a run on an empty
candidate sequence returns Completed with an empty confirmed list and an
empty probe trace — zero connections are issued. -/
theorem C4_empty_candidates (verbose timeout_value sleep_value : Nat) (ip : String)
    (port : PortArg) (p : Int) (h : resolvePort port = Except.ok p) :
    verify_smtp verbose [] ip timeout_value sleep_value port
      = Except.ok ⟨p, ⟨[], ScanStatus.completed, [],
          (if verbose > 0 then [LogMsg.connecting ip p] else [])⟩⟩ := by
  simp [verify_smtp, h, runLoop]

/-- C4 witness: the empty scan at verbosity 1 on the default port. -/
theorem C4_witness :
    verify_smtp 1 [] ("10.0.0.1") 5 0 PortArg.pyNone
      = Except.ok ⟨25, ⟨[], ScanStatus.completed, [], [LogMsg.connecting ("10.0.0.1") 25]⟩⟩ :=
  C4_empty_candidates 1 5 0 ("10.0.0.1") PortArg.pyNone 25 rfl

/-- C5 counterexample: with a non-zero configured delay, a single
candidate whose reply contains "503" aborts the scan, yet the aborting
iteration still performs the sleep — the `finally:` block runs on the
`break` exit too, so the claim's exception clause does not hold. -/
theorem C5_counterexample :
    (runLoop 0 1 [(("u"), NetEvent.reply ("b") ("503 need auth"))]).status
        = ScanStatus.abortedAuthRequired
    ∧ (runLoop 0 1 [(("u"), NetEvent.reply ("b") ("503 need auth"))]).iters.map Iter.actions
        = [[Action.socketCreate, Action.connectAttempt, Action.recvBanner,
            Action.send (vrfyCommand ("u")), Action.recvReply, Action.close, Action.sleep]] := by
  decide

/-- C5 amended: with a non-zero configured delay, the sleep is performed
right after the close of each candidate's teardown on every iteration —
including the iterations that abort the scan via a 503 or 500 reply or a
fatal connect failure, because the teardown runs in the finally block. -/
theorem C5_amended_sleep_always (verbose sleep_value : Nat)
    (pairs : List (String × NetEvent)) (hs : sleep_value ≠ 0) :
    ∀ it ∈ (runLoop verbose sleep_value pairs).iters,
      it.actions = bodyActions it.user it.event ++ [Action.close, Action.sleep] := by
  intro it hmem
  rw [runLoop_iters_shape verbose sleep_value pairs it hmem]
  simp [iterActions, finallyActions, hs]

/-- C5 witness: the aborting iteration of a one-candidate 503 run, with
delay 1, ends in close followed by sleep. -/
theorem C5_witness :
    (⟨("u"), NetEvent.reply ("b") ("503 x"),
        iterActions 1 ("u") (NetEvent.reply ("b") ("503 x"))⟩ : Iter).actions
      = bodyActions ("u") (NetEvent.reply ("b") ("503 x")) ++ [Action.close, Action.sleep] :=
  C5_amended_sleep_always 0 1 [(("u"), NetEvent.reply ("b") ("503 x"))] (by decide)
    ⟨("u"), NetEvent.reply ("b") ("503 x"),
        iterActions 1 ("u") (NetEvent.reply ("b") ("503 x"))⟩ (by decide)

/-- C7 counterexample: a zero-length port string is not treated as unset —
it reaches `int("")`, which raises a ValueError, so it does not resolve to
port 25 as the claim states. -/
theorem C7_counterexample :
    resolvePort (PortArg.pyStr ("")) = Except.error ("ValueError: invalid literal for int: ")
    ∧ verify_smtp 0 [] ("h") 5 0 (PortArg.pyStr (""))
        = Except.error ("ValueError: invalid literal for int: ") :=
  ⟨rfl, rfl⟩

/-- C7 amended: an unset port (None) or the single-space string resolves
to the default 25; every other non-numeric port string — the zero-length
string included — is a configuration error surfaced before any connection
is attempted: `verify_smtp` returns the ValueError and no scan runs. -/
theorem C7_amended_port_handling (verbose timeout_value sleep_value : Nat) (ip : String)
    (pairs : List (String × NetEvent)) (s : String) :
    resolvePort PortArg.pyNone = Except.ok 25
    ∧ resolvePort (PortArg.pyStr (" ")) = Except.ok 25
    ∧ (pyIntParse s = none → s ≠ (" ") →
        verify_smtp verbose pairs ip timeout_value sleep_value (PortArg.pyStr s)
          = Except.error (("ValueError: invalid literal for int: ") ++ s)) := by
  refine ⟨rfl, rfl, ?_⟩
  intro hp hs
  simp [verify_smtp, resolvePort, hs, hp]

/-- C7 witness: an explicit non-numeric port string makes the whole call
fail before any candidate is probed. -/
theorem C7_witness :
    verify_smtp 0 [(("u"), NetEvent.reply ("b") ("252 y"))] ("h") 5 0 (PortArg.pyStr ("abc"))
      = Except.error (("ValueError: invalid literal for int: ") ++ ("abc")) :=
  (C7_amended_port_handling 0 5 0 ("h") [(("u"), NetEvent.reply ("b") ("252 y"))]
      ("abc")).2.2 (by decide) (by decide)

/-- C8: every iteration acquires its socket as its first action and closes
it within the same iteration, on every exit path — normal classification,
503/500 abort, and IOError during connect, banner read, send or reply
read — so the close of the teardown always has an acquired connection. -/
theorem C8_close_on_every_exit_path (verbose sleep_value : Nat)
    (pairs : List (String × NetEvent)) :
    ∀ it ∈ (runLoop verbose sleep_value pairs).iters,
      it.actions.head? = some Action.socketCreate ∧ Action.close ∈ it.actions := by
  intro it hmem
  rw [runLoop_iters_shape verbose sleep_value pairs it hmem]
  cases it.event <;> simp [iterActions, bodyActions, finallyActions]

/-- C8 witness: the iteration of a failed connect still starts by
acquiring the socket and contains its close. -/
theorem C8_witness :
    (⟨("u"), NetEvent.connectFail ("boom"),
        iterActions 0 ("u") (NetEvent.connectFail ("boom"))⟩ : Iter).actions.head?
        = some Action.socketCreate
    ∧ Action.close ∈ (⟨("u"), NetEvent.connectFail ("boom"),
        iterActions 0 ("u") (NetEvent.connectFail ("boom"))⟩ : Iter).actions :=
  C8_close_on_every_exit_path 0 0 [(("u"), NetEvent.connectFail ("boom"))]
    ⟨("u"), NetEvent.connectFail ("boom"), iterActions 0 ("u") (NetEvent.connectFail ("boom"))⟩
    (by decide)

/-- C2: once a candidate's reply contains "503" (without "252" or "550")
or "500" (without the other three), the scan stops there: the probed
candidates are exactly the non-aborting prefix plus the aborting one, the
confirmed list holds the confirmed candidates of that prefix, and the
status is Aborted(AuthRequired) for a 503 reply, Aborted(Unsupported)
otherwise — no candidate queued afterwards is ever connected to. -/
theorem C2_abort_is_terminal (verbose sleep_value : Nat)
    (pre post : List (String × NetEvent)) (u b r : String)
    (hpre : ∀ p ∈ pre, abortsB (iterOutcome p.2) = false)
    (h252 : pyIn ("252") r = false) (h550 : pyIn ("550") r = false)
    (h5 : pyIn ("503") r = true ∨ pyIn ("500") r = true) :
    (runLoop verbose sleep_value (pre ++ (u, NetEvent.reply b r) :: post)).iters.map Iter.user
        = pre.map Prod.fst ++ [u]
    ∧ (runLoop verbose sleep_value (pre ++ (u, NetEvent.reply b r) :: post)).validUsers
        = (pre.filter (fun p => iterOutcome p.2 == Outcome.confirmed)).map Prod.fst
    ∧ (runLoop verbose sleep_value (pre ++ (u, NetEvent.reply b r) :: post)).status
        = (if pyIn ("503") r then ScanStatus.abortedAuthRequired
           else ScanStatus.abortedUnsupported) := by
  induction pre with
  | nil =>
      cases h503 : pyIn ("503") r with
      | true =>
          simp [runLoop, iterOutcome, classify, h252, h550, h503, abortsB, abortedStatus]
      | false =>
          rcases h5 with h | h500
          · rw [h503] at h; exact absurd h (by simp)
          · simp [runLoop, iterOutcome, classify, h252, h550, h503, h500, abortsB,
              abortedStatus]
  | cons p pre ih =>
      obtain ⟨u', ev'⟩ := p
      have hab : abortsB (iterOutcome ev') = false := hpre (u', ev') (List.mem_cons_self _ _)
      have hpre' : ∀ q ∈ pre, abortsB (iterOutcome q.2) = false := by
        intro q hq
        exact hpre q (List.mem_cons_of_mem _ hq)
      obtain ⟨ih1, ih2, ih3⟩ := ih hpre'
      refine ⟨?_, ?_, ?_⟩
      · simp [runLoop, hab, ih1]
      · by_cases hc : iterOutcome ev' = Outcome.confirmed
        · simp [runLoop, hab, hc, ih2, List.filter_cons, abortsB]
        · simp [runLoop, hab, hc, ih2, List.filter_cons]
      · simp [runLoop, hab, ih3]

/-- C2 witness: given replies "550" then "503" for two candidates and a
third candidate queued behind them, the probe trace is the first two
candidates only, the confirmed list is empty and the result is
Aborted(AuthRequired). -/
theorem C2_witness :
    (runLoop 0 0
        [(("u1"), NetEvent.reply ("b1") ("550 no")),
         (("u2"), NetEvent.reply ("b2") ("503 auth")),
         (("u3"), NetEvent.reply ("b3") ("252 y"))]).iters.map Iter.user
        = [("u1"), ("u2")]
    ∧ (runLoop 0 0
        [(("u1"), NetEvent.reply ("b1") ("550 no")),
         (("u2"), NetEvent.reply ("b2") ("503 auth")),
         (("u3"), NetEvent.reply ("b3") ("252 y"))]).validUsers = []
    ∧ (runLoop 0 0
        [(("u1"), NetEvent.reply ("b1") ("550 no")),
         (("u2"), NetEvent.reply ("b2") ("503 auth")),
         (("u3"), NetEvent.reply ("b3") ("252 y"))]).status
        = ScanStatus.abortedAuthRequired := by
  have h := C2_abort_is_terminal 0 0
      [(("u1"), NetEvent.reply ("b1") ("550 no"))]
      [(("u3"), NetEvent.reply ("b3") ("252 y"))]
      ("u2") ("b2") ("503 auth")
      (by decide) (by decide) (by decide) (Or.inl (by decide))
  exact ⟨h.1.trans (by decide), h.2.1.trans (by decide), h.2.2.trans (by decide)⟩

/-- Helper: the append loop of the inline branch concatenates its
accumulator with the transformed entries, in order. -/
theorem appendEntries_eq (entries acc : List String) :
    appendEntries entries acc = acc ++ entries.map transformEntry := by
  induction entries generalizing acc with
  | nil => simp [appendEntries]
  | cons e rest ih => simp [appendEntries, ih]

/-- C6 counterexample: the inline branch splits on single spaces, not on
whitespace — on the tab-separated input the code keeps one candidate
where the claim's whitespace split would produce two. -/
theorem C6_counterexample :
    get_usernames_inline ("a\tb") = [("a\tb")]
    ∧ get_usernames_whitespace_spec ("a\tb") = [("a"), ("b")]
    ∧ get_usernames_inline ("a\tb") ≠ get_usernames_whitespace_spec ("a\tb") := by
  decide

/-- C6 amended: for every nonempty non-file inline source string, the
candidates are the entries of the single-space split — consecutive spaces
yield empty entries and no other whitespace separates — each entry that
parses as an http or https URL replaced by its path trimmed of leading
and trailing slashes; exactly one candidate per entry, in the original
order with duplicates preserved, and every candidate comes from an entry
of the input. -/
theorem C6_amended_single_space_split (arg : String) (h : arg ≠ ("")) :
    get_usernames_inline arg = (pySplitOnSpace arg).map transformEntry
    ∧ (get_usernames_inline arg).length = (pySplitOnSpace arg).length
    ∧ ∀ c ∈ get_usernames_inline arg, ∃ e ∈ pySplitOnSpace arg, c = transformEntry e := by
  have he : get_usernames_inline arg = (pySplitOnSpace arg).map transformEntry := by
    simp [get_usernames_inline, h, appendEntries_eq]
  refine ⟨he, by rw [he]; simp, ?_⟩
  rw [he]
  intro c hc
  rw [List.mem_map] at hc
  obtain ⟨e, he1, he2⟩ := hc
  exact ⟨e, he1, he2.symm⟩

/-- C6 witness: a two-entry inline list with one URL entry yields the
plain entry and the trimmed URL path, in order. -/
theorem C6_witness :
    get_usernames_inline ("a http://h/u/") = [("a"), ("u")] :=
  ((C6_amended_single_space_split ("a http://h/u/") (by decide)).1).trans (by decide)

/-- Helper: the loop's returned list, terminal status and probe trace do
not depend on the verbosity level; only the log does. -/
theorem runLoop_verbose_independent (v1 v2 sleep_value : Nat)
    (pairs : List (String × NetEvent)) :
    (runLoop v1 sleep_value pairs).validUsers = (runLoop v2 sleep_value pairs).validUsers
    ∧ (runLoop v1 sleep_value pairs).status = (runLoop v2 sleep_value pairs).status
    ∧ (runLoop v1 sleep_value pairs).iters = (runLoop v2 sleep_value pairs).iters := by
  induction pairs with
  | nil => exact ⟨rfl, rfl, rfl⟩
  | cons p rest ih =>
      obtain ⟨u, ev⟩ := p
      cases hab : abortsB (iterOutcome ev) with
      | true => simp [runLoop, hab]
      | false => simp [runLoop, hab, ih.1, ih.2.1, ih.2.2]

/-- C9: two runs that differ only in verbosity return the same scan view —
the same resolved port, confirmed list, terminal status and probe trace
(hence the same candidates probed and the same aborts); logging is
diagnostic-only. -/
theorem C9_verbosity_noninterference (v1 v2 timeout_value sleep_value : Nat) (ip : String)
    (port : PortArg) (pairs : List (String × NetEvent)) :
    scanView (verify_smtp v1 pairs ip timeout_value sleep_value port)
      = scanView (verify_smtp v2 pairs ip timeout_value sleep_value port) := by
  obtain ⟨h1, h2, h3⟩ := runLoop_verbose_independent v1 v2 sleep_value pairs
  cases hp : resolvePort port with
  | error e => simp [verify_smtp, hp, scanView]
  | ok p => simp [verify_smtp, hp, scanView, h1, h2, h3]

/-- Helper: the accumulated `valid_users` list of the loop is a sublist —
a subsequence, respecting order and multiplicity — of the candidates. -/
theorem runLoop_valid_sublist (verbose sleep_value : Nat)
    (pairs : List (String × NetEvent)) :
    (runLoop verbose sleep_value pairs).validUsers.Sublist (pairs.map Prod.fst) := by
  induction pairs with
  | nil => simp [runLoop]
  | cons p rest ih =>
      obtain ⟨u, ev⟩ := p
      cases hab : abortsB (iterOutcome ev) with
      | true => simp [runLoop, hab]
      | false =>
          by_cases hc : iterOutcome ev = Outcome.confirmed
          · simpa [runLoop, hab, hc, abortsB] using ih.cons₂ u
          · simpa [runLoop, hab, hc] using ih.cons u

/-- C10: the confirmed list returned by verify_smtp is a subsequence of
the input candidate sequence — every element is an input candidate, they
appear in input order, and multiplicity never exceeds the input's. -/
theorem C10_confirmed_subsequence (verbose timeout_value sleep_value : Nat) (ip : String)
    (port : PortArg) (pairs : List (String × NetEvent)) (t : RunTrace)
    (h : verify_smtp verbose pairs ip timeout_value sleep_value port = Except.ok t) :
    t.result.validUsers.Sublist (pairs.map Prod.fst) := by
  have hs := runLoop_valid_sublist verbose sleep_value pairs
  cases hp : resolvePort port with
  | error e => simp [verify_smtp, hp] at h
  | ok p =>
      simp only [verify_smtp, hp] at h
      cases h
      exact hs

/-- C10 witness: a concrete two-candidate run whose confirmed list is a
subsequence of its candidates. -/
theorem C10_witness :
    (RunTrace.mk 25 (runLoop 0 0
        [(("a"), NetEvent.reply ("x") ("252 y")),
         (("b"), NetEvent.reply ("x") ("550 n"))])).result.validUsers.Sublist
      ([(("a"), NetEvent.reply ("x") ("252 y")),
        (("b"), NetEvent.reply ("x") ("550 n"))].map Prod.fst) :=
  C10_confirmed_subsequence 0 5 0 ("h") PortArg.pyNone
    [(("a"), NetEvent.reply ("x") ("252 y")), (("b"), NetEvent.reply ("x") ("550 n"))]
    (RunTrace.mk 25 (runLoop 0 0
        [(("a"), NetEvent.reply ("x") ("252 y")), (("b"), NetEvent.reply ("x") ("550 n"))]))
    rfl

end SMTPvrfy
